import Mathlib

/-! Shallow embedding of src/app.py of the AircraftTracker-Live repository,
together with theorems checking its natural-language specification against
the code.  Python float literals are modelled by rationals, the Python value
None by PyVal.none, a raised exception by Except.error, and the
heterogeneous raw state arrays of the OpenSky JSON payload by lists of
PyVal.  Line numbers in the comments refer to src/app.py. -/

/-- A Python value as it appears in a raw OpenSky state array. -/
inductive PyVal where
  | none
  | bool (b : Bool)
  | int (n : Int)
  | float (q : ℚ)
  | str (s : String)
  deriving DecidableEq, Repr

/-- Python truthiness of a PyVal: None, False, 0, 0.0 and the empty string
are falsy, everything else is truthy. -/
def PyVal.truthy : PyVal → Bool
  | PyVal.none => false
  | PyVal.bool b => b
  | PyVal.int n => decide (n ≠ 0)
  | PyVal.float q => decide (q ≠ 0)
  | PyVal.str s => decide (s ≠ "")

/-- The Python test x is None. -/
def PyVal.isNone : PyVal → Bool
  | PyVal.none => true
  | _ => false

/-- Numeric reading of a PyVal, used when a value reaches an arithmetic
context such as np.mean. -/
def PyVal.toRat : PyVal → ℚ
  | PyVal.int n => (n : ℚ)
  | PyVal.float q => q
  | PyVal.bool b => if b then 1 else 0
  | _ => 0

/-- One aircraft observation: the State class of src/app.py, lines 70-88. -/
structure State where
  icao24 : PyVal
  callsign : PyVal
  origin_country : PyVal
  time_position : PyVal
  last_contact : PyVal
  longitude : PyVal
  latitude : PyVal
  geo_altitude : PyVal
  on_ground : PyVal
  velocity : PyVal
  true_track : PyVal
  vertical_rate : PyVal
  sensors : PyVal
  baro_altitude : PyVal
  squawk : PyVal
  spi : PyVal
  position_source : PyVal
  deriving DecidableEq, Repr

/-- Python subscripting a list: state_array i, raising IndexError when the
index is out of range. -/
def pyIndex (a : List PyVal) (i : Nat) : Except String PyVal :=
  match a.get? i with
  | some v => Except.ok v
  | Option.none => Except.error "IndexError: list index out of range"

/-- The guarded access pattern of lines 84-88 of src/app.py:
state_array i when len(state_array) exceeds i, else None. -/
def optIndex (a : List PyVal) (i : Nat) : PyVal :=
  if i < a.length then a.getD i PyVal.none else PyVal.none

/-- State constructor, src/app.py lines 71-88: indices 0 to 11 are read
unconditionally (an out-of-range access raises IndexError), indices 12 to 16
are read through the guarded pattern that falls back to None. -/
def State.init (a : List PyVal) : Except String State := do
  let icao24 ← pyIndex a 0
  let callsign ← pyIndex a 1
  let origin_country ← pyIndex a 2
  let time_position ← pyIndex a 3
  let last_contact ← pyIndex a 4
  let longitude ← pyIndex a 5
  let latitude ← pyIndex a 6
  let geo_altitude ← pyIndex a 7
  let on_ground ← pyIndex a 8
  let velocity ← pyIndex a 9
  let true_track ← pyIndex a 10
  let vertical_rate ← pyIndex a 11
  Except.ok
    { icao24 := icao24, callsign := callsign, origin_country := origin_country,
      time_position := time_position, last_contact := last_contact,
      longitude := longitude, latitude := latitude, geo_altitude := geo_altitude,
      on_ground := on_ground, velocity := velocity, true_track := true_track,
      vertical_rate := vertical_rate,
      sensors := optIndex a 12,
      baro_altitude := optIndex a 13,
      squawk := optIndex a 14,
      spi := optIndex a 15,
      position_source := optIndex a 16 }

/-- A Snapshot: the StateVector class of src/app.py, lines 61-68. -/
structure StateVector where
  time : Int
  states : List State
  deriving DecidableEq, Repr

/-- StateVector constructor, src/app.py lines 62-68: time defaults to 0 when
the key is missing, the states key is iterated only when truthy (absent,
null or empty lists all give an empty record list), and a malformed inner
array makes the whole construction raise. -/
def StateVector.init (time : Option Int) (sts : Option (List (List PyVal))) :
    Except String StateVector :=
  Except.bind
    (match sts with
     | some arrays =>
         if arrays.isEmpty then Except.ok []
         else arrays.mapM State.init
     | Option.none => Except.ok [])
    fun records => Except.ok { time := time.getD 0, states := records }

/-- The JSON value produced by response.json: either an object carrying the
optional time and states keys, or something that is not an object, on which
the .get attribute access of line 63 raises. -/
inductive JsonVal where
  | obj (time : Option Int) (states : Option (List (List PyVal)))
  | nonObj (descr : String)
  deriving DecidableEq, Repr

/-- An HTTP response as observed by the code: a status code, the outcome of
parsing the body as JSON (error models a JSONDecodeError raised by
response.json), and the raw body text. -/
structure HttpResponse where
  status : Nat
  body : Except String JsonVal
  text : String
  deriving Repr

/-- The outcome of the requests.get call of src/app.py lines 41-47: either a
response object, or a raised transport exception (timeout, connection
failure). -/
inductive HttpOutcome where
  | response (r : HttpResponse)
  | raised (e : String)
  deriving Repr

/-- The body of the try block of OpenSkyApi.get_states, src/app.py lines
40-56, with the exception channel explicit: Except.error marks every control
path on which an exception would propagate out of the try block. -/
def getStatesTry (o : HttpOutcome) : Except String (Option StateVector) :=
  match o with
  | HttpOutcome.raised e => Except.error e
  | HttpOutcome.response r =>
      if r.status = 200 then
        Except.bind r.body fun j =>
          match j with
          | JsonVal.nonObj d => Except.error ("AttributeError: " ++ d)
          | JsonVal.obj t sts =>
              Except.bind (StateVector.init t sts) fun sv => Except.ok (some sv)
      else if r.status = 401 then Except.ok Option.none
      else Except.ok Option.none

/-- OpenSkyApi.get_states, src/app.py lines 21-59: the catch-all except of
lines 57-59 collapses every raised exception to the no-data sentinel None. -/
def OpenSkyApi.get_states (o : HttpOutcome) : Option StateVector :=
  match getStatesTry o with
  | Except.ok v => v
  | Except.error _ => Option.none

/-- What one attempt of the retry wrapper observes from the fetch call:
a StateVector, the no-data sentinel None, or a raised exception. -/
inductive FetchOutcome where
  | ok (sv : StateVector)
  | noData
  | raised (e : String)
  deriving Repr

/-- Observable behaviour of one run of the retry wrapper: the returned
record list (None on exhaustion), the sleep durations performed between
attempts in order, and the number of attempts made. -/
structure RetryTrace where
  result : Option (List State)
  sleeps : List Nat
  attempts : Nat
  deriving DecidableEq, Repr

/-- The retry loop of the module-level get_states, src/app.py lines 94-123.
The Python for-loop over range(max_retries) is expressed by structural
recursion on the number of remaining iterations; attempt is the 0-based
loop index and fuel equals maxRetries minus attempt on every reachable
call.  A truthy StateVector with a non-empty record list returns
immediately; a sentinel or empty-list failure sleeps min(2 pow attempt, 60)
before continuing (lines 110-114); a raised exception sleeps a fixed 5
seconds before continuing (lines 117-121); the last attempt returns None
without sleeping. -/
def retryLoop (fetch : Nat → FetchOutcome) (maxRetries : Nat) :
    Nat → Nat → RetryTrace
  | _, 0 => { result := Option.none, sleeps := [], attempts := 0 }
  | attempt, fuel + 1 =>
      match fetch attempt with
      | FetchOutcome.ok sv =>
          if sv.states.isEmpty then
            if attempt < maxRetries - 1 then
              { result := (retryLoop fetch maxRetries (attempt + 1) fuel).result,
                sleeps := min (2 ^ attempt) 60 ::
                  (retryLoop fetch maxRetries (attempt + 1) fuel).sleeps,
                attempts := (retryLoop fetch maxRetries (attempt + 1) fuel).attempts + 1 }
            else { result := Option.none, sleeps := [], attempts := 1 }
          else { result := some sv.states, sleeps := [], attempts := 1 }
      | FetchOutcome.noData =>
          if attempt < maxRetries - 1 then
            { result := (retryLoop fetch maxRetries (attempt + 1) fuel).result,
              sleeps := min (2 ^ attempt) 60 ::
                (retryLoop fetch maxRetries (attempt + 1) fuel).sleeps,
              attempts := (retryLoop fetch maxRetries (attempt + 1) fuel).attempts + 1 }
          else { result := Option.none, sleeps := [], attempts := 1 }
      | FetchOutcome.raised _ =>
          if attempt < maxRetries - 1 then
            { result := (retryLoop fetch maxRetries (attempt + 1) fuel).result,
              sleeps := 5 :: (retryLoop fetch maxRetries (attempt + 1) fuel).sleeps,
              attempts := (retryLoop fetch maxRetries (attempt + 1) fuel).attempts + 1 }
          else { result := Option.none, sleeps := [], attempts := 1 }

/-- The module-level get_states retry wrapper, src/app.py lines 92-123,
with max_retries defaulting to 3. -/
def get_states (fetch : Nat → FetchOutcome) (maxRetries : Nat := 3) : RetryTrace :=
  retryLoop fetch maxRetries 0 maxRetries

/-- One bounding-box dictionary of the bounds table of src/app.py
lines 208-213. -/
structure Bounds where
  lamin : ℚ
  lomin : ℚ
  lamax : ℚ
  lomax : ℚ
  deriving DecidableEq, Repr

/-- The bounds dictionary lookup bounds.get(region) of src/app.py
lines 208-215: world maps to None, unknown names also give None. -/
def regionBounds (region : String) : Option Bounds :=
  if region = "world" then Option.none
  else if region = "europe" then
    some { lamin := 35, lomin := -15, lamax := 60, lomax := 40 }
  else if region = "north_america" then
    some { lamin := 25, lomin := -130, lamax := 50, lomax := -60 }
  else if region = "asia" then
    some { lamin := 10, lomin := 60, lamax := 50, lomax := 150 }
  else Option.none

/-- The bbox tuple handed to api.get_states by the retry wrapper,
src/app.py lines 96-105: the dictionary entries are reassembled in the
order lamin, lamax, lomin, lomax; a falsy bounds value leads to a call
without a bbox. -/
def wrapperBbox (bounds : Option Bounds) : Option (ℚ × ℚ × ℚ × ℚ) :=
  match bounds with
  | some b => some (b.lamin, b.lamax, b.lomin, b.lomax)
  | Option.none => Option.none

/-- The four bbox query parameters of the outbound request. -/
structure QueryParams where
  lamin : Option ℚ
  lamax : Option ℚ
  lomin : Option ℚ
  lomax : Option ℚ
  deriving DecidableEq, Repr

/-- params.update of src/app.py lines 27-33: tuple position 0 becomes lamin,
1 becomes lamax, 2 becomes lomin, 3 becomes lomax; no bbox leaves all four
parameters unset. -/
def bboxParams (bbox : Option (ℚ × ℚ × ℚ × ℚ)) : QueryParams :=
  match bbox with
  | some b =>
      { lamin := some b.1, lamax := some b.2.1,
        lomin := some b.2.2.1, lomax := some b.2.2.2 }
  | Option.none =>
      { lamin := Option.none, lamax := Option.none,
        lomin := Option.none, lomax := Option.none }

/-- One heat point appended to heat_data, src/app.py line 234. -/
structure HeatPoint where
  lat : PyVal
  lon : PyVal
  weight : Nat
  deriving DecidableEq, Repr

/-- One folium marker as produced by src/app.py lines 236-255: the popup
fields after the truthiness substitutions of lines 230-232 (falsy callsign,
altitude or velocity become the literal string N/A; the origin line of the
popup uses state.origin_country with no substitution) and the icon rotation
of line 251 (falsy true_track becomes the integer 0). -/
structure Marker where
  lat : PyVal
  lon : PyVal
  callsign : PyVal
  altitude : PyVal
  velocity : PyVal
  origin : PyVal
  rotation : PyVal
  deriving DecidableEq, Repr

/-- The marker built for one state record, src/app.py lines 230-255. -/
def markerOf (s : State) : Marker :=
  { lat := s.latitude, lon := s.longitude,
    callsign := if s.callsign.truthy then s.callsign else PyVal.str "N/A",
    altitude := if s.geo_altitude.truthy then s.geo_altitude else PyVal.str "N/A",
    velocity := if s.velocity.truthy then s.velocity else PyVal.str "N/A",
    origin := s.origin_country,
    rotation := if s.true_track.truthy then s.true_track else PyVal.int 0 }

/-- One iteration of the marker loop of src/app.py lines 227-255: a record
is rendered only when both latitude and longitude are truthy. -/
def mapStep (acc : List HeatPoint × List Marker) (s : State) :
    List HeatPoint × List Marker :=
  if s.latitude.truthy && s.longitude.truthy then
    (acc.1 ++ [{ lat := s.latitude, lon := s.longitude, weight := 1 }],
     acc.2 ++ [markerOf s])
  else acc

/-- The map layer data built by create_map, src/app.py lines 225-257: the
heat_data list and the markers added to the map, in loop order. -/
def create_map_layers (states : List State) : List HeatPoint × List Marker :=
  states.foldl mapStep ([], [])

/-- The statistics derived by create_map, src/app.py lines 259-261.
avg_altitude none models the NaN produced by np.mean on an empty list. -/
structure Stats where
  total_aircraft : Nat
  countries : Nat
  avg_altitude : Option ℚ
  deriving DecidableEq, Repr

/-- np.mean on a list of numbers: NaN (modelled as none) on the empty list,
else the arithmetic mean. -/
def npMean (xs : List ℚ) : Option ℚ :=
  if xs.isEmpty then Option.none else some (xs.sum / (xs.length : ℚ))

/-- Lines 259-261 of src/app.py: total count of records, count of distinct
truthy origin_country values, and the average of the geo_altitude values
that are not None, the whole mean guarded by the truthiness of the record
list (an empty record list short-circuits to the integer 0). -/
def create_map_stats (states : List State) : Stats :=
  { total_aircraft := states.length,
    countries :=
      ((states.filter fun s => s.origin_country.truthy).map
        fun s => s.origin_country).dedup.length,
    avg_altitude :=
      if states.isEmpty then some 0
      else npMean ((states.filter fun s => !s.geo_altitude.isNone).map
        fun s => s.geo_altitude.toRat) }

/-- A state record with every field None, used to build concrete inputs. -/
def blankState : State :=
  { icao24 := PyVal.none, callsign := PyVal.none, origin_country := PyVal.none,
    time_position := PyVal.none, last_contact := PyVal.none,
    longitude := PyVal.none, latitude := PyVal.none, geo_altitude := PyVal.none,
    on_ground := PyVal.none, velocity := PyVal.none, true_track := PyVal.none,
    vertical_rate := PyVal.none, sensors := PyVal.none,
    baro_altitude := PyVal.none, squawk := PyVal.none, spi := PyVal.none,
    position_source := PyVal.none }

/-- A record whose only set field is geo_altitude. -/
def stateAlt (v : PyVal) : State := { blankState with geo_altitude := v }

/-- A record positioned exactly on the equator: latitude 0.0 is a present,
non-null coordinate that Python truthiness treats as falsy. -/
def equatorState : State :=
  { blankState with latitude := PyVal.float 0, longitude := PyVal.float 10 }

/-- A rendered record with present zero altitude and velocity, absent
origin country. -/
def groundedState : State :=
  { blankState with
    latitude := PyVal.float 5
    longitude := PyVal.float 10
    geo_altitude := PyVal.float 0
    velocity := PyVal.float 0 }

/-- Characterization of a successful State construction: with at least 12
elements every mandatory field takes the value at its fixed index and the
extended fields go through the guarded access. -/
theorem State.init_eq (a : List PyVal) (h : 12 ≤ a.length) :
    State.init a = Except.ok
      { icao24 := a.getD 0 PyVal.none, callsign := a.getD 1 PyVal.none,
        origin_country := a.getD 2 PyVal.none, time_position := a.getD 3 PyVal.none,
        last_contact := a.getD 4 PyVal.none, longitude := a.getD 5 PyVal.none,
        latitude := a.getD 6 PyVal.none, geo_altitude := a.getD 7 PyVal.none,
        on_ground := a.getD 8 PyVal.none, velocity := a.getD 9 PyVal.none,
        true_track := a.getD 10 PyVal.none, vertical_rate := a.getD 11 PyVal.none,
        sensors := optIndex a 12, baro_altitude := optIndex a 13,
        squawk := optIndex a 14, spi := optIndex a 15,
        position_source := optIndex a 16 } := by
  rcases a with _ | ⟨x0, a⟩
  · simp only [List.length_nil] at h; omega
  rcases a with _ | ⟨x1, a⟩
  · simp only [List.length_cons, List.length_nil] at h; omega
  rcases a with _ | ⟨x2, a⟩
  · simp only [List.length_cons, List.length_nil] at h; omega
  rcases a with _ | ⟨x3, a⟩
  · simp only [List.length_cons, List.length_nil] at h; omega
  rcases a with _ | ⟨x4, a⟩
  · simp only [List.length_cons, List.length_nil] at h; omega
  rcases a with _ | ⟨x5, a⟩
  · simp only [List.length_cons, List.length_nil] at h; omega
  rcases a with _ | ⟨x6, a⟩
  · simp only [List.length_cons, List.length_nil] at h; omega
  rcases a with _ | ⟨x7, a⟩
  · simp only [List.length_cons, List.length_nil] at h; omega
  rcases a with _ | ⟨x8, a⟩
  · simp only [List.length_cons, List.length_nil] at h; omega
  rcases a with _ | ⟨x9, a⟩
  · simp only [List.length_cons, List.length_nil] at h; omega
  rcases a with _ | ⟨x10, a⟩
  · simp only [List.length_cons, List.length_nil] at h; omega
  rcases a with _ | ⟨x11, a⟩
  · simp only [List.length_cons, List.length_nil] at h; omega
  rfl

/-- getD is unchanged by take when the index is below the cut. -/
theorem getD_take_of_lt (a : List PyVal) (i n : Nat) (h : i < n) :
    (a.take n).getD i PyVal.none = a.getD i PyVal.none := by
  induction a generalizing i n with
  | nil => simp
  | cons x xs ih =>
      cases n with
      | zero => omega
      | succ m =>
          cases i with
          | zero => rfl
          | succ j => simpa using ih j m (by omega)

/-- The guarded access of optIndex is unchanged by take 17 for indices
below 17. -/
theorem optIndex_take (a : List PyVal) (i : Nat) (h : i < 17) :
    optIndex (a.take 17) i = optIndex a i := by
  unfold optIndex
  rw [List.length_take]
  by_cases hi : i < a.length
  · rw [if_pos (by omega), if_pos hi, getD_take_of_lt a i 17 h]
  · rw [if_neg (by omega), if_neg hi]

/-- C2 counterexample: a raw array of exactly 12 elements has length below
13, yet the State mapping succeeds instead of raising, because only indices
0 to 11 are read unconditionally. -/
theorem C2_short_array_cex :
    (List.replicate 12 PyVal.none).length < 13 ∧
    State.init (List.replicate 12 PyVal.none) = Except.ok blankState := by
  constructor
  · decide
  · rfl

/-- C2 amended: for every raw state array of length strictly less than 12,
the State mapping raises an IndexError; indices 0 through 11 are the
mandatory ones. -/
theorem C2_short_array_amended (a : List PyVal) (h : a.length < 12) :
    State.init a = Except.error "IndexError: list index out of range" := by
  rcases a with _ | ⟨x0, a⟩
  · rfl
  rcases a with _ | ⟨x1, a⟩
  · rfl
  rcases a with _ | ⟨x2, a⟩
  · rfl
  rcases a with _ | ⟨x3, a⟩
  · rfl
  rcases a with _ | ⟨x4, a⟩
  · rfl
  rcases a with _ | ⟨x5, a⟩
  · rfl
  rcases a with _ | ⟨x6, a⟩
  · rfl
  rcases a with _ | ⟨x7, a⟩
  · rfl
  rcases a with _ | ⟨x8, a⟩
  · rfl
  rcases a with _ | ⟨x9, a⟩
  · rfl
  rcases a with _ | ⟨x10, a⟩
  · rfl
  rcases a with _ | ⟨x11, a⟩
  · rfl
  simp only [List.length_cons] at h
  omega

/-- C2 witness at a concrete 5 element array. -/
theorem C2_short_array_witness :
    (List.replicate 5 PyVal.none).length < 12 ∧
    State.init (List.replicate 5 PyVal.none) =
      Except.error "IndexError: list index out of range" :=
  ⟨by decide, C2_short_array_amended _ (by decide)⟩

/-- C3: for every raw state array of length between 13 and 17 inclusive the
State mapping never raises; every field whose index lies within the array
takes the value at its fixed index, and each extended field whose source
index lies beyond the array length is None. -/
theorem C3_extended_fields (a : List PyVal) (h13 : 13 ≤ a.length) (h17 : a.length ≤ 17) :
    ∃ s, State.init a = Except.ok s ∧
      s.icao24 = a.getD 0 PyVal.none ∧
      s.callsign = a.getD 1 PyVal.none ∧
      s.origin_country = a.getD 2 PyVal.none ∧
      s.time_position = a.getD 3 PyVal.none ∧
      s.last_contact = a.getD 4 PyVal.none ∧
      s.longitude = a.getD 5 PyVal.none ∧
      s.latitude = a.getD 6 PyVal.none ∧
      s.geo_altitude = a.getD 7 PyVal.none ∧
      s.on_ground = a.getD 8 PyVal.none ∧
      s.velocity = a.getD 9 PyVal.none ∧
      s.true_track = a.getD 10 PyVal.none ∧
      s.vertical_rate = a.getD 11 PyVal.none ∧
      s.sensors = a.getD 12 PyVal.none ∧
      s.baro_altitude = (if 13 < a.length then a.getD 13 PyVal.none else PyVal.none) ∧
      s.squawk = (if 14 < a.length then a.getD 14 PyVal.none else PyVal.none) ∧
      s.spi = (if 15 < a.length then a.getD 15 PyVal.none else PyVal.none) ∧
      s.position_source = (if 16 < a.length then a.getD 16 PyVal.none else PyVal.none) := by
  refine ⟨_, State.init_eq a (by omega), rfl, rfl, rfl, rfl, rfl, rfl, rfl, rfl,
    rfl, rfl, rfl, rfl, ?_, rfl, rfl, rfl, rfl⟩
  show optIndex a 12 = a.getD 12 PyVal.none
  unfold optIndex
  exact if_pos (by omega)

/-- C3 witness at a concrete 14 element array. -/
theorem C3_extended_fields_witness :
    13 ≤ (List.replicate 14 (PyVal.int 7)).length ∧
    (List.replicate 14 (PyVal.int 7)).length ≤ 17 ∧
    (∃ s, State.init (List.replicate 14 (PyVal.int 7)) = Except.ok s ∧
      s.icao24 = (List.replicate 14 (PyVal.int 7)).getD 0 PyVal.none ∧
      s.callsign = (List.replicate 14 (PyVal.int 7)).getD 1 PyVal.none ∧
      s.origin_country = (List.replicate 14 (PyVal.int 7)).getD 2 PyVal.none ∧
      s.time_position = (List.replicate 14 (PyVal.int 7)).getD 3 PyVal.none ∧
      s.last_contact = (List.replicate 14 (PyVal.int 7)).getD 4 PyVal.none ∧
      s.longitude = (List.replicate 14 (PyVal.int 7)).getD 5 PyVal.none ∧
      s.latitude = (List.replicate 14 (PyVal.int 7)).getD 6 PyVal.none ∧
      s.geo_altitude = (List.replicate 14 (PyVal.int 7)).getD 7 PyVal.none ∧
      s.on_ground = (List.replicate 14 (PyVal.int 7)).getD 8 PyVal.none ∧
      s.velocity = (List.replicate 14 (PyVal.int 7)).getD 9 PyVal.none ∧
      s.true_track = (List.replicate 14 (PyVal.int 7)).getD 10 PyVal.none ∧
      s.vertical_rate = (List.replicate 14 (PyVal.int 7)).getD 11 PyVal.none ∧
      s.sensors = (List.replicate 14 (PyVal.int 7)).getD 12 PyVal.none ∧
      s.baro_altitude =
        (if 13 < (List.replicate 14 (PyVal.int 7)).length
         then (List.replicate 14 (PyVal.int 7)).getD 13 PyVal.none else PyVal.none) ∧
      s.squawk =
        (if 14 < (List.replicate 14 (PyVal.int 7)).length
         then (List.replicate 14 (PyVal.int 7)).getD 14 PyVal.none else PyVal.none) ∧
      s.spi =
        (if 15 < (List.replicate 14 (PyVal.int 7)).length
         then (List.replicate 14 (PyVal.int 7)).getD 15 PyVal.none else PyVal.none) ∧
      s.position_source =
        (if 16 < (List.replicate 14 (PyVal.int 7)).length
         then (List.replicate 14 (PyVal.int 7)).getD 16 PyVal.none else PyVal.none)) :=
  ⟨by decide, by decide, C3_extended_fields _ (by decide) (by decide)⟩

/-- C10: the State mapping reads only indices 0 through 16: every raw array
of length at least 12 is mapped successfully, and truncating the array to
its first 17 elements does not change the result, so elements beyond index
16 affect no field. -/
theorem C10_overlong_array (a : List PyVal) (h : 12 ≤ a.length) :
    (∃ s, State.init a = Except.ok s) ∧ State.init a = State.init (a.take 17) := by
  have ht : 12 ≤ (a.take 17).length := by
    rw [List.length_take]; omega
  refine ⟨⟨_, State.init_eq a h⟩, ?_⟩
  rw [State.init_eq a h, State.init_eq (a.take 17) ht]
  simp only [Except.ok.injEq, State.mk.injEq]
  exact ⟨(getD_take_of_lt a 0 17 (by omega)).symm, (getD_take_of_lt a 1 17 (by omega)).symm,
    (getD_take_of_lt a 2 17 (by omega)).symm, (getD_take_of_lt a 3 17 (by omega)).symm,
    (getD_take_of_lt a 4 17 (by omega)).symm, (getD_take_of_lt a 5 17 (by omega)).symm,
    (getD_take_of_lt a 6 17 (by omega)).symm, (getD_take_of_lt a 7 17 (by omega)).symm,
    (getD_take_of_lt a 8 17 (by omega)).symm, (getD_take_of_lt a 9 17 (by omega)).symm,
    (getD_take_of_lt a 10 17 (by omega)).symm, (getD_take_of_lt a 11 17 (by omega)).symm,
    (optIndex_take a 12 (by omega)).symm, (optIndex_take a 13 (by omega)).symm,
    (optIndex_take a 14 (by omega)).symm, (optIndex_take a 15 (by omega)).symm,
    (optIndex_take a 16 (by omega)).symm⟩

/-- C10 witness at a concrete 20 element array. -/
theorem C10_overlong_array_witness :
    12 ≤ (List.replicate 20 (PyVal.int 3)).length ∧
    ((∃ s, State.init (List.replicate 20 (PyVal.int 3)) = Except.ok s) ∧
      State.init (List.replicate 20 (PyVal.int 3)) =
        State.init ((List.replicate 20 (PyVal.int 3)).take 17)) :=
  ⟨by decide, C10_overlong_array _ (by decide)⟩

/-- Unfolding of one loop iteration on a sentinel failure with a later
attempt remaining: sleep the capped power of two and continue. -/
theorem retryLoop_noData_cont (fetch : Nat → FetchOutcome) (m a fuel : Nat)
    (hf : fetch a = FetchOutcome.noData) (hc : a < m - 1) :
    retryLoop fetch m a (fuel + 1) =
      { result := (retryLoop fetch m (a + 1) fuel).result,
        sleeps := min (2 ^ a) 60 :: (retryLoop fetch m (a + 1) fuel).sleeps,
        attempts := (retryLoop fetch m (a + 1) fuel).attempts + 1 } := by
  simp only [retryLoop, hf]
  rw [if_pos hc]

/-- Unfolding of one loop iteration on a sentinel failure at the last
attempt: return None with no sleep. -/
theorem retryLoop_noData_final (fetch : Nat → FetchOutcome) (m a fuel : Nat)
    (hf : fetch a = FetchOutcome.noData) (hc : ¬ a < m - 1) :
    retryLoop fetch m a (fuel + 1) =
      { result := Option.none, sleeps := [], attempts := 1 } := by
  simp only [retryLoop, hf]
  rw [if_neg hc]

/-- Unfolding of one loop iteration on an empty record list with a later
attempt remaining: treated exactly like the sentinel failure. -/
theorem retryLoop_okEmpty_cont (fetch : Nat → FetchOutcome) (m a fuel : Nat)
    (sv : StateVector) (hf : fetch a = FetchOutcome.ok sv)
    (he : sv.states = []) (hc : a < m - 1) :
    retryLoop fetch m a (fuel + 1) =
      { result := (retryLoop fetch m (a + 1) fuel).result,
        sleeps := min (2 ^ a) 60 :: (retryLoop fetch m (a + 1) fuel).sleeps,
        attempts := (retryLoop fetch m (a + 1) fuel).attempts + 1 } := by
  simp only [retryLoop, hf, he, List.isEmpty_nil, if_true]
  rw [if_pos hc]

/-- Unfolding of one loop iteration on a raised exception with a later
attempt remaining: sleep the fixed 5 seconds and continue. -/
theorem retryLoop_raised_cont (fetch : Nat → FetchOutcome) (m a fuel : Nat)
    (e : String) (hf : fetch a = FetchOutcome.raised e) (hc : a < m - 1) :
    retryLoop fetch m a (fuel + 1) =
      { result := (retryLoop fetch m (a + 1) fuel).result,
        sleeps := 5 :: (retryLoop fetch m (a + 1) fuel).sleeps,
        attempts := (retryLoop fetch m (a + 1) fuel).attempts + 1 } := by
  simp only [retryLoop, hf]
  rw [if_pos hc]

/-- Unfolding of one loop iteration on a non-empty record list: immediate
return of the list. -/
theorem retryLoop_found (fetch : Nat → FetchOutcome) (m a fuel : Nat)
    (sv : StateVector) (hf : fetch a = FetchOutcome.ok sv)
    (hne : sv.states ≠ []) :
    retryLoop fetch m a (fuel + 1) =
      { result := some sv.states, sleeps := [], attempts := 1 } := by
  have hemp : sv.states.isEmpty = false := by
    cases h : sv.states
    · exact absurd h hne
    · rfl
  simp only [retryLoop, hf, hemp, Bool.false_eq_true, if_false]

/-- Closed form of the retry loop when every attempt yields the no-data
sentinel. -/
theorem retryLoop_allNoData (fetch : Nat → FetchOutcome) (maxRetries : Nat)
    (h : ∀ n, fetch n = FetchOutcome.noData) :
    ∀ fuel attempt, fuel + attempt = maxRetries →
      retryLoop fetch maxRetries attempt fuel =
        { result := Option.none,
          sleeps := (List.range' attempt (fuel - 1)).map fun a => min (2 ^ a) 60,
          attempts := fuel } := by
  intro fuel
  induction fuel with
  | zero => intro attempt _; rfl
  | succ fuel ih =>
      intro attempt hsum
      by_cases hc : attempt < maxRetries - 1
      · rw [retryLoop_noData_cont fetch maxRetries attempt fuel (h attempt) hc,
          ih (attempt + 1) (by omega)]
        obtain ⟨k, rfl⟩ : ∃ k, fuel = k + 1 := ⟨fuel - 1, by omega⟩
        simp only [RetryTrace.mk.injEq, Nat.add_sub_cancel, List.range'_succ,
          List.map_cons]
      · rw [retryLoop_noData_final fetch maxRetries attempt fuel (h attempt) hc]
        have hz : fuel = 0 := by omega
        subst hz
        rfl

/-- C1 counterexample: with a fetcher raising an exception on every call and
the default cap of 3, the sleeps of the two non-final failed attempts are
the fixed 5 seconds, not min(2 pow attempt, 60) which would be 1 and 2. -/
theorem C1_backoff_cex :
    (get_states (fun _ => FetchOutcome.raised "boom") 3).sleeps = [5, 5] ∧
    (get_states (fun _ => FetchOutcome.raised "boom") 3).sleeps ≠
      [min (2 ^ 0) 60, min (2 ^ 1) 60] := by
  refine ⟨rfl, by decide⟩

/-- C1 amended: for every failed attempt that is not the final one, the
sleep before the next attempt is min(2 pow attempt, 60) seconds when the
fetcher returned the no-data sentinel or an empty record list, but a fixed
5 seconds when the attempt raised an exception. -/
theorem C1_backoff_amended (fetch : Nat → FetchOutcome) (maxRetries attempt : Nat)
    (hc : attempt < maxRetries - 1) :
    ((fetch attempt = FetchOutcome.noData ∨
        ∃ sv, fetch attempt = FetchOutcome.ok sv ∧ sv.states = []) →
      (retryLoop fetch maxRetries attempt (maxRetries - attempt)).sleeps.head? =
        some (min (2 ^ attempt) 60)) ∧
    (∀ e, fetch attempt = FetchOutcome.raised e →
      (retryLoop fetch maxRetries attempt (maxRetries - attempt)).sleeps.head? =
        some 5) := by
  obtain ⟨fuel, hfuel⟩ : ∃ fuel, maxRetries - attempt = fuel + 1 :=
    ⟨maxRetries - attempt - 1, by omega⟩
  rw [hfuel]
  constructor
  · rintro (hf | ⟨sv, hf, he⟩)
    · rw [retryLoop_noData_cont fetch maxRetries attempt fuel hf hc]; rfl
    · rw [retryLoop_okEmpty_cont fetch maxRetries attempt fuel sv hf he hc]; rfl
  · intro e hf
    rw [retryLoop_raised_cont fetch maxRetries attempt fuel e hf hc]; rfl

/-- C1 witness at a concrete raising fetcher, cap 3, attempt 0. -/
theorem C1_backoff_witness :
    0 < 3 - 1 ∧
    (retryLoop (fun _ => FetchOutcome.raised "boom") 3 0 (3 - 0)).sleeps.head? =
      some 5 :=
  ⟨by decide,
    (C1_backoff_amended (fun _ => FetchOutcome.raised "boom") 3 0 (by decide)).2
      "boom" rfl⟩

/-- C4: an empty (non-null) record list does not count as success; with an
empty list on the first call and a non-empty list on the second, exactly two
attempts occur, the second record list is returned, and the single sleep in
between is min(2 pow 0, 60) = 1 second, like any other failure. -/
theorem C4_empty_retry (fetch : Nat → FetchOutcome) (sv1 sv2 : StateVector)
    (h0 : fetch 0 = FetchOutcome.ok sv1) (he : sv1.states = [])
    (h1 : fetch 1 = FetchOutcome.ok sv2) (hne : sv2.states ≠ []) :
    (get_states fetch 3).attempts = 2 ∧
    (get_states fetch 3).result = some sv2.states ∧
    (get_states fetch 3).sleeps = [1] := by
  have step0 : get_states fetch 3 = retryLoop fetch 3 0 (2 + 1) := rfl
  rw [step0, retryLoop_okEmpty_cont fetch 3 0 2 sv1 h0 he (by decide),
    show (2 : Nat) = 1 + 1 from rfl,
    retryLoop_found fetch 3 1 1 sv2 h1 hne]
  exact ⟨rfl, rfl, rfl⟩

/-- C4 witness at a concrete fetcher. -/
theorem C4_empty_retry_witness :
    ((fun n => if n = 0 then FetchOutcome.ok { time := 0, states := [] }
        else FetchOutcome.ok { time := 0, states := [blankState] }) 0 =
      FetchOutcome.ok { time := 0, states := [] }) ∧
    (({ time := 0, states := [] } : StateVector).states = []) ∧
    ((fun n => if n = 0 then FetchOutcome.ok { time := 0, states := [] }
        else FetchOutcome.ok { time := 0, states := [blankState] }) 1 =
      FetchOutcome.ok { time := 0, states := [blankState] }) ∧
    (({ time := 0, states := [blankState] } : StateVector).states ≠ []) ∧
    ((get_states (fun n => if n = 0 then FetchOutcome.ok { time := 0, states := [] }
        else FetchOutcome.ok { time := 0, states := [blankState] }) 3).attempts = 2 ∧
     (get_states (fun n => if n = 0 then FetchOutcome.ok { time := 0, states := [] }
        else FetchOutcome.ok { time := 0, states := [blankState] }) 3).result =
       some ({ time := 0, states := [blankState] } : StateVector).states ∧
     (get_states (fun n => if n = 0 then FetchOutcome.ok { time := 0, states := [] }
        else FetchOutcome.ok { time := 0, states := [blankState] }) 3).sleeps = [1]) :=
  ⟨rfl, rfl, rfl, by simp,
    C4_empty_retry _ _ _ rfl rfl rfl (by simp)⟩

/-- C8: with a fetcher that always returns the no-data sentinel, exactly
maxRetries attempts occur, the sleeps between consecutive attempts are
min(2 pow a, 60) for a = 0 .. maxRetries - 2 (none after the final
attempt), and the final result is None. -/
theorem C8_exhaustion (fetch : Nat → FetchOutcome) (maxRetries : Nat)
    (h : ∀ n, fetch n = FetchOutcome.noData) :
    (get_states fetch maxRetries).result = Option.none ∧
    (get_states fetch maxRetries).attempts = maxRetries ∧
    (get_states fetch maxRetries).sleeps =
      (List.range (maxRetries - 1)).map fun a => min (2 ^ a) 60 := by
  have hrun := retryLoop_allNoData fetch maxRetries h maxRetries 0 (by omega)
  have hg : get_states fetch maxRetries = retryLoop fetch maxRetries 0 maxRetries := rfl
  rw [hg, hrun, List.range_eq_range']
  exact ⟨rfl, rfl, rfl⟩

/-- C8 witness at the always-failing fetcher with the default cap 3:
three attempts, sleeps 1 then 2 seconds, final None. -/
theorem C8_exhaustion_witness :
    (∀ n : Nat, (fun _ => FetchOutcome.noData) n = FetchOutcome.noData) ∧
    ((get_states (fun _ => FetchOutcome.noData) 3).result = Option.none ∧
     (get_states (fun _ => FetchOutcome.noData) 3).attempts = 3 ∧
     (get_states (fun _ => FetchOutcome.noData) 3).sleeps =
       (List.range (3 - 1)).map fun a => min (2 ^ a) 60) :=
  ⟨fun _ => rfl, C8_exhaustion (fun _ => FetchOutcome.noData) 3 fun _ => rfl⟩

/-- C5: the snapshot fetcher never lets a failure escape its boundary: a
raised transport exception, any non-200 status, and an unparseable body all
collapse to the no-data sentinel None, and a Snapshot is produced only from
a 200 response whose body parses to a JSON object on which the StateVector
construction succeeds. -/
theorem C5_fetcher_no_raise (o : HttpOutcome) :
    (∀ e, o = HttpOutcome.raised e → OpenSkyApi.get_states o = Option.none) ∧
    (∀ r, o = HttpOutcome.response r → r.status ≠ 200 →
      OpenSkyApi.get_states o = Option.none) ∧
    (∀ r e, o = HttpOutcome.response r → r.body = Except.error e →
      OpenSkyApi.get_states o = Option.none) ∧
    (∀ sv, OpenSkyApi.get_states o = some sv →
      ∃ r t sts, o = HttpOutcome.response r ∧ r.status = 200 ∧
        r.body = Except.ok (JsonVal.obj t sts) ∧
        StateVector.init t sts = Except.ok sv) := by
  refine ⟨?_, ?_, ?_, ?_⟩
  · rintro e rfl; rfl
  · rintro r rfl hne
    simp only [OpenSkyApi.get_states, getStatesTry, if_neg hne]
    by_cases h4 : r.status = 401
    · rw [if_pos h4]
    · rw [if_neg h4]
  · rintro r e rfl hbody
    simp only [OpenSkyApi.get_states, getStatesTry]
    by_cases h2 : r.status = 200
    · rw [if_pos h2, hbody]
      rfl
    · rw [if_neg h2]
      by_cases h4 : r.status = 401
      · rw [if_pos h4]
      · rw [if_neg h4]
  · intro sv hsv
    cases o with
    | raised e => exact absurd hsv (by simp [OpenSkyApi.get_states, getStatesTry])
    | response r =>
        by_cases h2 : r.status = 200
        · simp only [OpenSkyApi.get_states, getStatesTry, if_pos h2] at hsv
          cases hb : r.body with
          | error e =>
              rw [hb] at hsv
              simp only [Except.bind] at hsv
              exact absurd hsv (by simp)
          | ok j =>
              rw [hb] at hsv
              simp only [Except.bind] at hsv
              cases j with
              | nonObj d => exact absurd hsv (by simp)
              | obj t sts =>
                  dsimp only at hsv
                  cases hinit : StateVector.init t sts with
                  | error m =>
                      rw [hinit] at hsv
                      simp only [Except.bind] at hsv
                      exact absurd hsv (by simp)
                  | ok sv0 =>
                      rw [hinit] at hsv
                      simp only [Except.bind] at hsv
                      simp only [Option.some.injEq] at hsv
                      exact ⟨r, t, sts, rfl, h2, hb, by rw [hinit, hsv]⟩
        · exfalso
          simp only [OpenSkyApi.get_states, getStatesTry, if_neg h2] at hsv
          by_cases h4 : r.status = 401
          · rw [if_pos h4] at hsv
            exact absurd hsv (by simp)
          · rw [if_neg h4] at hsv
            exact absurd hsv (by simp)

/-- C5 witness: a 401 response with a well-formed body collapses to None. -/
theorem C5_fetcher_no_raise_witness :
    (HttpOutcome.response
        { status := 401, body := Except.ok (JsonVal.obj Option.none Option.none),
          text := "denied" } =
      HttpOutcome.response
        { status := 401, body := Except.ok (JsonVal.obj Option.none Option.none),
          text := "denied" }) ∧
    ((401 : Nat) ≠ 200) ∧
    OpenSkyApi.get_states
      (HttpOutcome.response
        { status := 401, body := Except.ok (JsonVal.obj Option.none Option.none),
          text := "denied" }) = Option.none :=
  ⟨rfl, by decide,
    (C5_fetcher_no_raise
      (HttpOutcome.response
        { status := 401, body := Except.ok (JsonVal.obj Option.none Option.none),
          text := "denied" })).2.1 _ rfl (by decide)⟩

/-- The marker loop as a fold, restated with an arbitrary accumulator. -/
theorem create_map_layers_go (states : List State) (h : List HeatPoint)
    (t : List Marker) :
    states.foldl mapStep (h, t) =
      (h ++ (states.filter fun s => s.latitude.truthy && s.longitude.truthy).map
          (fun s => { lat := s.latitude, lon := s.longitude, weight := 1 }),
       t ++ (states.filter fun s => s.latitude.truthy && s.longitude.truthy).map
          markerOf) := by
  induction states generalizing h t with
  | nil => simp
  | cons s ss ih =>
      by_cases hc : (s.latitude.truthy && s.longitude.truthy) = true
      · simp only [List.foldl_cons, mapStep, hc, if_true, List.filter_cons,
          List.map_cons]
        rw [ih]
        simp [List.append_assoc]
      · have hc' : (s.latitude.truthy && s.longitude.truthy) = false :=
          Bool.not_eq_true _ ▸ Bool.eq_false_iff.mpr hc
        simp only [List.foldl_cons, mapStep, hc', Bool.false_eq_true, if_false,
          List.filter_cons]
        exact ih h t

/-- C6 amended: the presentation builder emits a heat point and a marker
exactly for the records whose latitude and longitude are both truthy, in
order; in the marker the callsign, altitude and velocity are replaced by
the literal N/A when falsy (absent, zero or empty), the origin is shown
verbatim with no substitution, and the rotation is true_track when truthy,
else the integer 0. -/
theorem C6_map_layers_amended (states : List State) :
    (create_map_layers states).1 =
      (states.filter fun s => s.latitude.truthy && s.longitude.truthy).map
        (fun s => { lat := s.latitude, lon := s.longitude, weight := 1 }) ∧
    (create_map_layers states).2 =
      (states.filter fun s => s.latitude.truthy && s.longitude.truthy).map
        (fun s =>
          { lat := s.latitude, lon := s.longitude,
            callsign := if s.callsign.truthy then s.callsign else PyVal.str "N/A",
            altitude := if s.geo_altitude.truthy then s.geo_altitude
              else PyVal.str "N/A",
            velocity := if s.velocity.truthy then s.velocity else PyVal.str "N/A",
            origin := s.origin_country,
            rotation := if s.true_track.truthy then s.true_track
              else PyVal.int 0 }) := by
  have hgo :
      create_map_layers states =
        ((states.filter fun s => s.latitude.truthy && s.longitude.truthy).map
          (fun s => { lat := s.latitude, lon := s.longitude, weight := 1 }),
         (states.filter fun s => s.latitude.truthy && s.longitude.truthy).map
          markerOf) := by
    have := create_map_layers_go states [] []
    simpa using this
  rw [hgo]
  exact ⟨rfl, rfl⟩

/-- C6 counterexample: a record on the equator has present (non-null)
latitude 0.0 and longitude 10.0 yet emits neither a heat point nor a
marker; a rendered record with present zero altitude and velocity shows
N/A for both, and its absent origin is rendered verbatim as None instead
of N/A. -/
theorem C6_map_layers_cex :
    equatorState.latitude ≠ PyVal.none ∧
    equatorState.longitude ≠ PyVal.none ∧
    create_map_layers [equatorState] = ([], []) ∧
    groundedState.geo_altitude ≠ PyVal.none ∧
    groundedState.velocity ≠ PyVal.none ∧
    groundedState.origin_country = PyVal.none ∧
    (create_map_layers [groundedState]).2 =
      [{ lat := PyVal.float 5, lon := PyVal.float 10,
         callsign := PyVal.str "N/A", altitude := PyVal.str "N/A",
         velocity := PyVal.str "N/A", origin := PyVal.none,
         rotation := PyVal.int 0 }] := by
  refine ⟨by decide, by decide, by decide, by decide, by decide, rfl, by decide⟩

/-- C7 counterexample: with one record whose altitude is null, the record
list is non-empty and contains no altitude value, and the reported mean is
the NaN of np.mean on an empty list (modelled none), not 0. -/
theorem C7_stats_cex :
    [stateAlt PyVal.none] ≠ ([] : List State) ∧
    (create_map_stats [stateAlt PyVal.none]).avg_altitude = Option.none ∧
    (create_map_stats [stateAlt PyVal.none]).avg_altitude ≠ some 0 := by
  refine ⟨by decide, rfl, by decide⟩

/-- C7 amended: the mean is taken over the non-null geo_altitude values
while the total count includes records with null altitude: altitudes a, b
and null give mean (a + b) / 2 and count 3; a non-empty record list with no
non-null altitude yields NaN (modelled none), and 0 arises only from the
truthiness guard on an empty record list. -/
theorem C7_stats_amended (a b : ℚ) :
    (create_map_stats [stateAlt (PyVal.float a), stateAlt (PyVal.float b),
        stateAlt PyVal.none]).total_aircraft = 3 ∧
    (create_map_stats [stateAlt (PyVal.float a), stateAlt (PyVal.float b),
        stateAlt PyVal.none]).avg_altitude = some ((a + b) / 2) ∧
    (create_map_stats [stateAlt PyVal.none]).avg_altitude = Option.none ∧
    (create_map_stats []).avg_altitude = some 0 := by
  refine ⟨rfl, ?_, rfl, rfl⟩
  show npMean [a, b] = some ((a + b) / 2)
  simp [npMean]

/-- C9: the europe preset reaches the fetcher as the bbox tuple
(35, 60, -15, 40) read in the order lamin, lamax, lomin, lomax, and the
world preset reaches it with no bounding box, leaving all four bbox query
parameters unset. -/
theorem C9_region_bbox :
    wrapperBbox (regionBounds "europe") = some (35, 60, -15, 40) ∧
    bboxParams (wrapperBbox (regionBounds "europe")) =
      { lamin := some 35, lamax := some 60, lomin := some (-15),
        lomax := some 40 } ∧
    wrapperBbox (regionBounds "world") = Option.none ∧
    bboxParams (wrapperBbox (regionBounds "world")) =
      { lamin := Option.none, lamax := Option.none,
        lomin := Option.none, lomax := Option.none } := by
  refine ⟨by decide, by decide, rfl, rfl⟩
